import Mathlib

/-!
Verification of the AccessibilityAgent repository: a thin HTTP client
(`voiceover_client.py`) around a local screen-reader automation server, and a
scripted test scenario (`main.py`).  The HTTP server is modelled as an oracle
supplying the outcome of each request; the client functions and the scripted
scenario are shallowly embedded as pure Lean functions over that oracle,
producing the same result records and, for the scenario, a trace of the
requests issued, texts printed and sleeps performed.
-/

/-- Python runtime values as far as this repository manipulates them:
JSON-decoded bodies, payloads and the fields of the result record. -/
inductive PyVal where
  | none : PyVal
  | bool : Bool → PyVal
  | int : Int → PyVal
  | str : String → PyVal
  | list : List PyVal → PyVal
  | dict : List (String × PyVal) → PyVal

/-- Python truthiness of a value, as used by `if result.get("success"):`
and `data.get("voiceOverRunning")`. -/
def PyVal.truthy : PyVal → Bool
  | .none => false
  | .bool b => b
  | .int n => decide (n ≠ 0)
  | .str s => decide (s ≠ "")
  | .list [] => false
  | .list (_ :: _) => true
  | .dict [] => false
  | .dict (_ :: _) => true

/-- The `dict.get(key, default)` method of a Python dict (first binding wins;
a Python dict has unique keys so this is exact). -/
def dictGet (d : List (String × PyVal)) (key : String) (dflt : PyVal) : PyVal :=
  match d.lookup key with
  | some v => v
  | Option.none => dflt

/-- Python `==` between a value and a string literal: true exactly for an
equal string (no value of another type compares equal to a `str`). -/
def PyVal.eqStr : PyVal → String → Bool
  | .str t, s => t == s
  | _, _ => false

mutual

/-- Python `repr()` of a value (models the CPython runtime; escape sequences
inside string reprs are not modelled, which is exact for the strings this
repository ever formats). -/
def PyVal.pyRepr : PyVal → String
  | PyVal.none => "None"
  | PyVal.bool b => if b then "True" else "False"
  | PyVal.int n => toString n
  | PyVal.str s => "\x27" ++ s ++ "\x27"
  | PyVal.list xs => "[" ++ pyReprList xs ++ "]"
  | PyVal.dict fs => "\x7b" ++ pyReprFields fs ++ "\x7d"

/-- Comma-joined reprs of the elements of a Python list. -/
def pyReprList : List PyVal → String
  | [] => ""
  | [v] => PyVal.pyRepr v
  | v :: vs => PyVal.pyRepr v ++ ", " ++ pyReprList vs

/-- Comma-joined `key: value` reprs of the entries of a Python dict. -/
def pyReprFields : List (String × PyVal) → String
  | [] => ""
  | [(k, v)] => "\x27" ++ k ++ "\x27: " ++ PyVal.pyRepr v
  | (k, v) :: fs => "\x27" ++ k ++ "\x27: " ++ PyVal.pyRepr v ++ ", " ++ pyReprFields fs

end

/-- Python `str()` of a value, which is also what an f-string interpolation
produces: a string prints as itself, everything else as its repr. -/
def PyVal.pyStr : PyVal → String
  | PyVal.str s => s
  | v => v.pyRepr

/-- Bool test that `pat` is a prefix of `hay` (character lists). -/
def charsHavePre : List Char → List Char → Bool
  | [], _ => true
  | _ :: _, [] => false
  | a :: as, b :: bs => a == b && charsHavePre as bs

/-- Bool test that `pat` occurs as a contiguous sublist of `hay`. -/
def charsContain (pat : List Char) : List Char → Bool
  | [] => charsHavePre pat []
  | c :: rest => charsHavePre pat (c :: rest) || charsContain pat rest

/-- Python `pat in hay` on strings: substring containment. -/
def pyContains (hay pat : String) : Bool :=
  charsContain pat.toList hay.toList

/-- Python `s.upper()` (character-wise upper-casing; the method strings this
repository upper-cases are ASCII, for which this is exact). -/
def pyUpper (s : String) : String :=
  String.mk (s.data.map Char.toUpper)

/-- Python `s.lower()` (character-wise lower-casing; the matched keywords
are ASCII, for which this is exact). -/
def pyLower (s : String) : String :=
  String.mk (s.data.map Char.toLower)

/-- An HTTP request as issued by this repository: `requests.get(url)`, or
`requests.post(url)` with an optional `json=` payload. -/
inductive Request where
  | get : String → Request
  | post : String → Option PyVal → Request

/-- The outcome of one `requests` call, supplied by the server oracle:
`connErr` models `requests.exceptions.ConnectionError`, `exn` any other
exception raised by the call itself (carrying its `str(e)`), and `resp`
a received response with its status code and JSON body.  A body of
`Except.error msg` models `.json()` raising (non-JSON body) or parsing to a
non-dict value, both of which raise at that point with message `msg`;
`Except.ok fields` is a body that parsed to a JSON object. -/
inductive HttpOutcome where
  | connErr : String → HttpOutcome
  | exn : String → HttpOutcome
  | resp : Nat → Except String (List (String × PyVal)) → HttpOutcome

/-- The `VoiceOverResponse` dataclass of `voiceover_client.py`.  Python does
not enforce the `Optional[...]` annotations, so every field holds a Python
value; absent fields are `PyVal.none` and the default `success` is
`PyVal.bool false`, exactly as `_make_request` constructs them. -/
structure VoiceOverResponse where
  success : PyVal
  message : PyVal
  currentItem : PyVal
  responses : PyVal
  error : PyVal

/-- Python `data or {}`: the payload actually sent by
`requests.post(url, json=data or {})`. -/
def dataOrEmpty : Option PyVal → PyVal
  | Option.none => PyVal.dict []
  | some d => if d.truthy then d else PyVal.dict []

/-- The fixed message produced on `requests.exceptions.ConnectionError`. -/
def connectErrorMsg : String :=
  "Could not connect to VoiceOver server. Make sure it\x27s running."

/-- The method `VoiceOverClient._make_request` of `voiceover_client.py`,
parameterised by the server oracle.  An unsupported method raises
`ValueError(f"Unsupported method: {method}")` inside the `try`, which the
`except Exception` clause turns into a failure result, so no exception ever
reaches the caller; totality of this Lean function embeds that fact. -/
def _make_request (server : Request → HttpOutcome) (method : String)
    (endpoint : String) (data : Option PyVal) : VoiceOverResponse :=
  if pyUpper method == "GET" then
    handle (server (Request.get endpoint))
  else if pyUpper method == "POST" then
    handle (server (Request.post endpoint (some (dataOrEmpty data))))
  else
    ⟨PyVal.bool false, PyVal.none, PyVal.none, PyVal.none,
      PyVal.str ("Unsupported method: " ++ method)⟩
where
  /-- Outcome handling shared by both branches: parse the body into the
  result record, or catch the exception as the two `except` clauses do. -/
  handle : HttpOutcome → VoiceOverResponse
    | HttpOutcome.connErr _ =>
        ⟨PyVal.bool false, PyVal.none, PyVal.none, PyVal.none,
          PyVal.str connectErrorMsg⟩
    | HttpOutcome.exn m =>
        ⟨PyVal.bool false, PyVal.none, PyVal.none, PyVal.none, PyVal.str m⟩
    | HttpOutcome.resp _ (Except.error m) =>
        ⟨PyVal.bool false, PyVal.none, PyVal.none, PyVal.none, PyVal.str m⟩
    | HttpOutcome.resp _ (Except.ok result) =>
        ⟨dictGet result "success" (PyVal.bool false),
          dictGet result "message" PyVal.none,
          dictGet result "currentItem" PyVal.none,
          dictGet result "responses" PyVal.none,
          dictGet result "error" PyVal.none⟩

/-- `VoiceOverClient.start_voiceover`. -/
def start_voiceover (server : Request → HttpOutcome) : VoiceOverResponse :=
  _make_request server "POST" "/voiceover/start" Option.none

/-- `VoiceOverClient.stop_voiceover`. -/
def stop_voiceover (server : Request → HttpOutcome) : VoiceOverResponse :=
  _make_request server "POST" "/voiceover/stop" Option.none

/-- `VoiceOverClient.type_text` (the `text: str` annotation is unenforced,
so the argument is a Python value). -/
def type_text (server : Request → HttpOutcome) (text : PyVal) : VoiceOverResponse :=
  _make_request server "POST" "/voiceover/type" (some (PyVal.dict [("text", text)]))

/-- `VoiceOverClient.navigate_next`. -/
def navigate_next (server : Request → HttpOutcome) : VoiceOverResponse :=
  _make_request server "POST" "/voiceover/next" Option.none

/-- `VoiceOverClient.navigate_previous`. -/
def navigate_previous (server : Request → HttpOutcome) : VoiceOverResponse :=
  _make_request server "POST" "/voiceover/previous" Option.none

/-- `VoiceOverClient.get_current_item`. -/
def get_current_item (server : Request → HttpOutcome) : VoiceOverResponse :=
  _make_request server "GET" "/voiceover/current" Option.none

/-- `VoiceOverClient.click_current`. -/
def click_current (server : Request → HttpOutcome) : VoiceOverResponse :=
  _make_request server "POST" "/voiceover/click" Option.none

/-- `VoiceOverClient.open_app`. -/
def open_app (server : Request → HttpOutcome) (app_name : PyVal) : VoiceOverResponse :=
  _make_request server "POST" "/system/open-app" (some (PyVal.dict [("appName", app_name)]))

/-- `VoiceOverClient.press_key`. -/
def press_key (server : Request → HttpOutcome) (key : PyVal) : VoiceOverResponse :=
  _make_request server "POST" "/system/press-key" (some (PyVal.dict [("key", key)]))

/-- `VoiceOverClient.open_copilot_and_send_message`. -/
def open_copilot_and_send_message (server : Request → HttpOutcome)
    (message : PyVal) : VoiceOverResponse :=
  _make_request server "POST" "/operations/open-copilot-and-send-message"
    (some (PyVal.dict [("message", message)]))

/-- `VoiceOverClient.health_check`. -/
def health_check (server : Request → HttpOutcome) : VoiceOverResponse :=
  _make_request server "GET" "/health" Option.none

/-- `AccessibilityAgent.execute_llm_command` of `voiceover_client.py`. -/
def execute_llm_command (server : Request → HttpOutcome)
    (llm_response : List (String × PyVal)) : VoiceOverResponse :=
  let action := dictGet llm_response "action" PyVal.none
  if action.eqStr "type" then
    type_text server (dictGet llm_response "text" (PyVal.str ""))
  else if action.eqStr "navigate_next" then
    navigate_next server
  else if action.eqStr "navigate_previous" then
    navigate_previous server
  else if action.eqStr "click" then
    click_current server
  else if action.eqStr "open_app" then
    open_app server (dictGet llm_response "app_name" (PyVal.str ""))
  else if action.eqStr "press_key" then
    press_key server (dictGet llm_response "key" (PyVal.str ""))
  else
    ⟨PyVal.bool false, PyVal.none, PyVal.none, PyVal.none,
      PyVal.str ("Unknown action: " ++ action.pyStr)⟩

/-- An observable event of the scripted scenario in `main.py`: an HTTP
request being issued, a line printed to the console, or a `time.sleep`
(recorded in tenths of a second, so `time.sleep(0.5)` is `sleep 5`). -/
inductive Ev where
  | req : Request → Ev
  | print : String → Ev
  | sleep : Nat → Ev

/-- How one of the bounded navigation loops of `main.py` ended: keyword
match found (loop 4.3: decorative image detected), the `while` bound
exhausted, a poll whose `success` field was falsy (`break`), or an
exception that escapes to the enclosing `try` of test step 4. -/
inductive NavExit where
  | found : NavExit
  | exhausted : NavExit
  | pollFailed : NavExit
  | exn : String → NavExit
deriving DecidableEq

/-- Result of running one navigation loop: its exit, the final value of the
attempt counter, the next request index, and the events it produced. -/
structure LoopOut where
  exit : NavExit
  attempts : Nat
  k : Nat
  evs : List Ev

/-- Message of the `AttributeError` raised by calling `.lower()` on a
non-string value (models the CPython runtime; only its non-emptiness and
the control flow matter to this repository, which merely prints it). -/
def noLowerMsg (v : PyVal) : String :=
  let ty := match v with
    | PyVal.none => "NoneType"
    | PyVal.bool _ => "bool"
    | PyVal.int _ => "int"
    | PyVal.str _ => "str"
    | PyVal.list _ => "list"
    | PyVal.dict _ => "dict"
  "\x27" ++ ty ++ "\x27 object has no attribute \x27lower\x27"

/-- Step 4.1 of `main.py` (lines 89-119): the loop searching for the
"show more" control.  `server` maps the index of each request issued by the
scenario to its outcome, `k` is the index of the next request, `attempts`
the current value of `navigation_attempts` and the last argument the
remaining fuel `max_attempts - navigation_attempts` of the `while` bound.
A `.req` event records the attempt to issue the request, whether or not the
call then raises. -/
def navLoop1Go (server : Nat → HttpOutcome) (k attempts : Nat) : Nat → LoopOut
  | 0 => ⟨NavExit.exhausted, attempts, k, []⟩
  | fuel + 1 =>
    let pollEv : List Ev := [Ev.req (Request.get "/voiceover/current")]
    match server k with
    | HttpOutcome.connErr m => ⟨NavExit.exn m, attempts, k + 1, pollEv⟩
    | HttpOutcome.exn m => ⟨NavExit.exn m, attempts, k + 1, pollEv⟩
    | HttpOutcome.resp _ (Except.error m) => ⟨NavExit.exn m, attempts, k + 1, pollEv⟩
    | HttpOutcome.resp _ (Except.ok cur) =>
      if (dictGet cur "success" PyVal.none).truthy then
        match dictGet cur "currentItem" (PyVal.str "") with
        | PyVal.str raw =>
          let evs := pollEv ++
            [Ev.print ("   � Current focus: " ++
              (dictGet cur "currentItem" (PyVal.str "Unknown")).pyStr)]
          if pyContains (pyLower raw) "show more" then
            let evs := evs ++ [Ev.print "   ✅ Found Open(+) icon control!",
              Ev.req (Request.post "/voiceover/click" Option.none)]
            match server (k + 1) with
            | HttpOutcome.connErr m => ⟨NavExit.exn m, attempts, k + 2, evs⟩
            | HttpOutcome.exn m => ⟨NavExit.exn m, attempts, k + 2, evs⟩
            | HttpOutcome.resp _ (Except.error m) => ⟨NavExit.exn m, attempts, k + 2, evs⟩
            | HttpOutcome.resp _ (Except.ok clickRes) =>
              if (dictGet clickRes "success" PyVal.none).truthy then
                ⟨NavExit.found, attempts, k + 2, evs ++
                  [Ev.print "   ✅ Open(+) icon activated successfully", Ev.sleep 20]⟩
              else
                ⟨NavExit.found, attempts, k + 2, evs ++
                  [Ev.print ("   ❌ Failed to activate Open(+) icon: " ++
                    (dictGet clickRes "error" PyVal.none).pyStr)]⟩
          else
            let evs := evs ++ [Ev.req (Request.post "/voiceover/next" Option.none)]
            match server (k + 1) with
            | HttpOutcome.connErr m => ⟨NavExit.exn m, attempts, k + 2, evs⟩
            | HttpOutcome.exn m => ⟨NavExit.exn m, attempts, k + 2, evs⟩
            | HttpOutcome.resp _ _ =>
              let rest := navLoop1Go server (k + 2) (attempts + 1) fuel
              ⟨rest.exit, rest.attempts, rest.k, evs ++ [Ev.sleep 5] ++ rest.evs⟩
        | v => ⟨NavExit.exn (noLowerMsg v), attempts, k + 1, pollEv⟩
      else
        ⟨NavExit.pollFailed, attempts, k + 1, pollEv ++
          [Ev.print ("   ❌ Unable to get current element: " ++
            (dictGet cur "error" PyVal.none).pyStr)]⟩

/-- Step 4.1 loop started as in the source: `navigation_attempts = 0`,
`max_attempts = 5`. -/
def navLoop1 (server : Nat → HttpOutcome) (k : Nat) : LoopOut :=
  navLoop1Go server k 0 5

/-- Step 4.2 of `main.py` (lines 129-167): the loop searching for the
"upload" + "file" control, with the keyboard/mouse activation branches. -/
def navLoop2Go (server : Nat → HttpOutcome) (k attempts : Nat) : Nat → LoopOut
  | 0 => ⟨NavExit.exhausted, attempts, k, []⟩
  | fuel + 1 =>
    let pollEv : List Ev := [Ev.req (Request.get "/voiceover/current")]
    match server k with
    | HttpOutcome.connErr m => ⟨NavExit.exn m, attempts, k + 1, pollEv⟩
    | HttpOutcome.exn m => ⟨NavExit.exn m, attempts, k + 1, pollEv⟩
    | HttpOutcome.resp _ (Except.error m) => ⟨NavExit.exn m, attempts, k + 1, pollEv⟩
    | HttpOutcome.resp _ (Except.ok cur) =>
      if (dictGet cur "success" PyVal.none).truthy then
        match dictGet cur "currentItem" (PyVal.str "") with
        | PyVal.str raw =>
          let evs := pollEv ++
            [Ev.print ("   📍 Current focus: " ++
              (dictGet cur "currentItem" (PyVal.str "Unknown")).pyStr)]
          if pyContains (pyLower raw) "upload" && pyContains (pyLower raw) "file" then
            let evs := evs ++ [Ev.print "   ✅ Found Upload file control!",
              Ev.print "   ⌨️  Attempting keyboard activation...",
              Ev.req (Request.post "/voiceover/click" Option.none)]
            match server (k + 1) with
            | HttpOutcome.connErr m => ⟨NavExit.exn m, attempts, k + 2, evs⟩
            | HttpOutcome.exn m => ⟨NavExit.exn m, attempts, k + 2, evs⟩
            | HttpOutcome.resp _ (Except.error m) => ⟨NavExit.exn m, attempts, k + 2, evs⟩
            | HttpOutcome.resp _ (Except.ok clickRes) =>
              if !(dictGet clickRes "success" PyVal.none).truthy then
                ⟨NavExit.found, attempts, k + 2, evs ++
                  [Ev.print "   ⚠️  Keyboard activation failed - control not accessible with keyboard",
                   Ev.print "   🖱️  Using mouse activation as fallback...",
                   Ev.print "   🖱️  Simulating mouse click on Upload file control...",
                   Ev.sleep 10,
                   Ev.print "   ✅ Upload file control activated via mouse",
                   Ev.sleep 20]⟩
              else
                ⟨NavExit.found, attempts, k + 2, evs ++
                  [Ev.print "   ✅ Upload file control activated via keyboard",
                   Ev.sleep 20]⟩
          else
            let evs := evs ++ [Ev.req (Request.post "/voiceover/next" Option.none)]
            match server (k + 1) with
            | HttpOutcome.connErr m => ⟨NavExit.exn m, attempts, k + 2, evs⟩
            | HttpOutcome.exn m => ⟨NavExit.exn m, attempts, k + 2, evs⟩
            | HttpOutcome.resp _ _ =>
              let rest := navLoop2Go server (k + 2) (attempts + 1) fuel
              ⟨rest.exit, rest.attempts, rest.k, evs ++ [Ev.sleep 5] ++ rest.evs⟩
        | v => ⟨NavExit.exn (noLowerMsg v), attempts, k + 1, pollEv⟩
      else
        ⟨NavExit.pollFailed, attempts, k + 1, pollEv ++
          [Ev.print ("   ❌ Unable to get current element: " ++
            (dictGet cur "error" PyVal.none).pyStr)]⟩

/-- Step 4.2 loop started with `navigation_attempts = 0` and the same
`max_attempts = 5` bound. -/
def navLoop2 (server : Nat → HttpOutcome) (k : Nat) : LoopOut :=
  navLoop2Go server k 0 5

/-- Step 4.3 of `main.py` (lines 180-205): the decorative-image focus check
(its `for` loop over `decorative_keywords = [", image"]` has a single
element and is unrolled).  Exit `found` means a decorative image was
detected; a failed poll breaks silently here. -/
def navLoop3Go (server : Nat → HttpOutcome) (k attempts : Nat) : Nat → LoopOut
  | 0 => ⟨NavExit.exhausted, attempts, k, []⟩
  | fuel + 1 =>
    let pollEv : List Ev := [Ev.req (Request.get "/voiceover/current")]
    match server k with
    | HttpOutcome.connErr m => ⟨NavExit.exn m, attempts, k + 1, pollEv⟩
    | HttpOutcome.exn m => ⟨NavExit.exn m, attempts, k + 1, pollEv⟩
    | HttpOutcome.resp _ (Except.error m) => ⟨NavExit.exn m, attempts, k + 1, pollEv⟩
    | HttpOutcome.resp _ (Except.ok cur) =>
      if (dictGet cur "success" PyVal.none).truthy then
        match dictGet cur "currentItem" (PyVal.str "") with
        | PyVal.str raw =>
          let evs := pollEv ++ [Ev.print ("   📍 Checking focus: " ++ raw)]
          if pyContains (pyLower raw) ", image" then
            ⟨NavExit.found, attempts, k + 1, evs ++
              [Ev.print "   ⚠️  ISSUE DETECTED: Screen reader focus moved to decorative image!",
               Ev.print ("   📢 Image content being announced: \x27" ++ raw ++ "\x27")]⟩
          else
            let evs := evs ++ [Ev.req (Request.post "/voiceover/next" Option.none)]
            match server (k + 1) with
            | HttpOutcome.connErr m => ⟨NavExit.exn m, attempts, k + 2, evs⟩
            | HttpOutcome.exn m => ⟨NavExit.exn m, attempts, k + 2, evs⟩
            | HttpOutcome.resp _ _ =>
              let rest := navLoop3Go server (k + 2) (attempts + 1) fuel
              ⟨rest.exit, rest.attempts, rest.k, evs ++ [Ev.sleep 5] ++ rest.evs⟩
        | v => ⟨NavExit.exn (noLowerMsg v), attempts, k + 1, pollEv⟩
      else
        ⟨NavExit.pollFailed, attempts, k + 1, pollEv⟩

/-- Step 4.3 loop started with `focus_check_attempts = 0` and
`max_focus_checks = 5`. -/
def navLoop3 (server : Nat → HttpOutcome) (k : Nat) : LoopOut :=
  navLoop3Go server k 0 5

/-- The separator `"=" * 60` printed at the top of the scenario. -/
def eqSep60 : String := String.mk (List.replicate 60 '=')

/-- The line `print("=" * 30, "Verification Result", "=" * 30)`: `print`
joins its arguments with single spaces. -/
def verificationSep : String :=
  String.mk (List.replicate 30 '=') ++ " Verification Result " ++
    String.mk (List.replicate 30 '=')

/-- Step 5 of `test_voiceover_operations` (lines 217-228): stop VoiceOver
and print the closing line.  `k` is the index of the next request. -/
def tvo_step5 (server : Nat → HttpOutcome) (k : Nat) (evs : List Ev) : List Ev :=
  let evs := evs ++ [Ev.print "\n5. Stopping VoiceOver...",
    Ev.req (Request.post "/voiceover/stop" Option.none)]
  let evs :=
    match server k with
    | HttpOutcome.connErr m => evs ++ [Ev.print ("   ❌ Request failed: " ++ m)]
    | HttpOutcome.exn m => evs ++ [Ev.print ("   ❌ Request failed: " ++ m)]
    | HttpOutcome.resp _ (Except.error m) =>
        evs ++ [Ev.print ("   ❌ Request failed: " ++ m)]
    | HttpOutcome.resp _ (Except.ok result) =>
        if (dictGet result "success" PyVal.none).truthy then
          evs ++ [Ev.print "   ✅ VoiceOver stopped"]
        else
          evs ++ [Ev.print ("   ❌ Stop failed: " ++
            (dictGet result "error" PyVal.none).pyStr)]
  evs ++ [Ev.print "\n🎉 Accessibility test completed!"]

/-- Steps 4.2 and 4.3 of the navigation scenario, reached when loop 4.1
did not raise; `found1` tells whether it found its control.  An exception
in any loop jumps to the `except` of step 4 (line 213) and then to step 5. -/
def tvo_step4b (server : Nat → HttpOutcome) (k : Nat) (found1 : Bool)
    (evs : List Ev) : List Ev :=
  let evs := if found1 then evs else
    evs ++ [Ev.print "   ⚠️  Open(+) icon not found after maximum attempts"]
  let evs := evs ++ [Ev.print "   🔍 Step 4.2: Navigating to Upload file control..."]
  let r2 := navLoop2 server k
  let evs := evs ++ r2.evs
  match r2.exit with
  | NavExit.exn m =>
      tvo_step5 server r2.k
        (evs ++ [Ev.print ("   ❌ Error during accessibility testing: " ++ m)])
  | e2 =>
    let evs := if e2 = NavExit.found then evs else
      evs ++ [Ev.print "   ⚠️  Upload file control not found after maximum attempts"]
    let evs := evs ++
      [Ev.print "   🔍 Step 4.3: Checking for decorative image focus issues..."]
    let r3 := navLoop3 server r2.k
    let evs := evs ++ r3.evs
    match r3.exit with
    | NavExit.exn m =>
        tvo_step5 server r3.k
          (evs ++ [Ev.print ("   ❌ Error during accessibility testing: " ++ m)])
    | e3 =>
      let evs := if e3 = NavExit.found then evs else
        evs ++ [Ev.print verificationSep,
          Ev.print "   ✅ No decorative image focus issues detected"]
      tvo_step5 server r3.k (evs ++ [Ev.print "   📊 Navigation scenario completed"])

/-- Step 4 of `test_voiceover_operations` (lines 81-214): the three bounded
navigation loops, guarded by one `try` whose handler prints the error and
falls through to step 5. -/
def tvo_step4 (server : Nat → HttpOutcome) (k : Nat) (evs : List Ev) : List Ev :=
  let evs := evs ++ [Ev.print "\n4. Testing accessibility navigation scenario...",
    Ev.print "   🔍 Step 4.1: Navigating to Open(+) icon control..."]
  let r1 := navLoop1 server k
  let evs := evs ++ r1.evs
  match r1.exit with
  | NavExit.exn m =>
      tvo_step5 server r1.k
        (evs ++ [Ev.print ("   ❌ Error during accessibility testing: " ++ m)])
  | e1 => tvo_step4b server r1.k (e1 = NavExit.found) evs

/-- Step 3 of `test_voiceover_operations` (lines 50-78): open Copilot.  The
`for` loop runs over the single name `"Copilot"`; its inner `try` catches
every exception the request or `.json()` can raise, and nothing after it in
the outer `try` can raise, so the outer handler is unreachable. -/
def tvo_step3 (server : Nat → HttpOutcome) (evs : List Ev) : List Ev :=
  let evs := evs ++ [Ev.print "\n3. Opening Copilot...",
    Ev.req (Request.post "/system/open-app"
      (some (PyVal.dict [("appName", PyVal.str "Copilot")])))]
  let (evs, opened) :=
    match server 2 with
    | HttpOutcome.connErr m =>
        (evs ++ [Ev.print ("   ❌ Failed to try Copilot: " ++ m)], false)
    | HttpOutcome.exn m =>
        (evs ++ [Ev.print ("   ❌ Failed to try Copilot: " ++ m)], false)
    | HttpOutcome.resp _ (Except.error m) =>
        (evs ++ [Ev.print ("   ❌ Failed to try Copilot: " ++ m)], false)
    | HttpOutcome.resp _ (Except.ok result) =>
        if (dictGet result "success" PyVal.none).truthy then
          (evs ++ [Ev.print "   ✅ Successfully opened Copilot"], true)
        else
          (evs ++ [Ev.print ("   ⚠️  Trying to open Copilot: " ++
            (dictGet result "error" PyVal.none).pyStr)], false)
  let evs := if opened then evs else
    evs ++ [Ev.print "   ⚠️  Copilot application not found, you may need to install GitHub Copilot first"]
  let evs := evs ++ [Ev.print "   ⏰ Waiting for application to start...", Ev.sleep 30]
  tvo_step4 server 3 evs

/-- Step 2 of `test_voiceover_operations` (lines 33-46): start VoiceOver;
on failure print the reason, conditionally the permissions hint, and
return from the whole function. -/
def tvo_step2 (server : Nat → HttpOutcome) (evs : List Ev) : List Ev :=
  let evs := evs ++ [Ev.print "\n2. Starting VoiceOver...",
    Ev.req (Request.post "/voiceover/start" Option.none)]
  match server 1 with
  | HttpOutcome.connErr m => evs ++ [Ev.print ("   ❌ Request failed: " ++ m)]
  | HttpOutcome.exn m => evs ++ [Ev.print ("   ❌ Request failed: " ++ m)]
  | HttpOutcome.resp _ (Except.error m) =>
      evs ++ [Ev.print ("   ❌ Request failed: " ++ m)]
  | HttpOutcome.resp _ (Except.ok result) =>
      if (dictGet result "success" PyVal.none).truthy then
        tvo_step3 server (evs ++ [Ev.print "   ✅ VoiceOver started successfully"])
      else
        evs ++ [Ev.print ("   ❌ VoiceOver startup failed: " ++
            (dictGet result "error" PyVal.none).pyStr)] ++
          (if pyContains (dictGet result "error" (PyVal.str "")).pyStr
              "VoiceOver not supported" then
            [Ev.print "   💡 Please ensure VoiceOver permissions are configured as per README"]
          else []) 

/-- The function `test_voiceover_operations` of `main.py`, as the trace of
events it produces when run against a server oracle that maps the index of
each request the script issues to that request outcome. -/
def test_voiceover_operations (server : Nat → HttpOutcome) : List Ev :=
  let evs := [Ev.print "🎯 Starting Python -> TypeScript -> VoiceOver integration test",
    Ev.print eqSep60,
    Ev.print "1. Checking server status...",
    Ev.req (Request.get "/health")]
  match server 0 with
  | HttpOutcome.connErr m => evs ++ [Ev.print ("   ❌ Connection failed: " ++ m)]
  | HttpOutcome.exn m => evs ++ [Ev.print ("   ❌ Connection failed: " ++ m)]
  | HttpOutcome.resp status body =>
    if status = 200 then
      match body with
      | Except.error m => evs ++ [Ev.print ("   ❌ Connection failed: " ++ m)]
      | Except.ok data =>
        tvo_step2 server (evs ++ [Ev.print "   ✅ Server running normally",
          Ev.print ("   📊 VoiceOver status: " ++
            (if (dictGet data "voiceOverRunning" PyVal.none).truthy
             then "Running" else "Not running"))])
    else
      evs ++ [Ev.print ("   ❌ Server error: " ++ toString status)]

/-- A server outcome that is a failure (unreachable or malformed server)
whose exception, if any, has a non-empty `str(e)`; this is the case for
every exception the `requests` library and `json` decoder raise for an
unreachable or malformed server. -/
def failsNonEmpty : HttpOutcome → Prop
  | HttpOutcome.connErr _ => True
  | HttpOutcome.exn m => m ≠ ""
  | HttpOutcome.resp _ (Except.error m) => m ≠ ""
  | HttpOutcome.resp _ (Except.ok _) => False

/-- A result record with `success` false and a non-empty error string. -/
def failedResult (r : VoiceOverResponse) : Prop :=
  r.success = PyVal.bool false ∧ ∃ e, r.error = PyVal.str e ∧ e ≠ ""

/-- The focus text printed by loop 4.1 for a successful poll outcome. -/
def focusLabel : HttpOutcome → String
  | HttpOutcome.resp _ (Except.ok cur) =>
      (dictGet cur "currentItem" (PyVal.str "Unknown")).pyStr
  | _ => ""

/-- Events of one full non-matching iteration of loop 4.1 whose poll is
request number `j`: poll the current item, print the focus, advance via the
next endpoint, sleep 0.5 s. -/
def iterBlock1 (server : Nat → HttpOutcome) (j : Nat) : List Ev :=
  [Ev.req (Request.get "/voiceover/current"),
   Ev.print ("   � Current focus: " ++ focusLabel (server j)),
   Ev.req (Request.post "/voiceover/next" Option.none),
   Ev.sleep 5]

/-- A server that always answers success with the given current item. -/
def constItemServer (s : String) : Nat → HttpOutcome := fun _ =>
  HttpOutcome.resp 200
    (Except.ok [("success", PyVal.bool true), ("currentItem", PyVal.str s)])

/-- A server whose every response is a JSON body with a falsy `success`. -/
def pollFailServer : Nat → HttpOutcome := fun _ =>
  HttpOutcome.resp 200 (Except.ok [("success", PyVal.bool false)])

/-- A server that refuses every connection. -/
def connRefusedServer : Request → HttpOutcome := fun _ =>
  HttpOutcome.connErr "refused"

/-- A server whose every request raises a non-connection exception. -/
def exnServer (m : String) : Request → HttpOutcome := fun _ => HttpOutcome.exn m

/-- A server whose every response body fails to parse as JSON. -/
def badJsonServer (m : String) : Request → HttpOutcome := fun _ =>
  HttpOutcome.resp 200 (Except.error m)

/-- A server answering every request with the same JSON object. -/
def constBodyServer (fields : List (String × PyVal)) : Request → HttpOutcome :=
  fun _ => HttpOutcome.resp 200 (Except.ok fields)

/-- The scenario server of claim C5: health check says VoiceOver is not
running, and the start request fails as unsupported. -/
def c5server : Nat → HttpOutcome := fun n =>
  if n = 0 then
    HttpOutcome.resp 200 (Except.ok [("voiceOverRunning", PyVal.bool false)])
  else
    HttpOutcome.resp 200
      (Except.ok [("success", PyVal.bool false),
        ("error", PyVal.str "VoiceOver not supported")])

/-- A failure result carrying the given error string. -/
def failResponse (e : String) : VoiceOverResponse :=
  ⟨PyVal.bool false, PyVal.none, PyVal.none, PyVal.none, PyVal.str e⟩

/-- Unfolding `_make_request` for the GET method. -/
theorem make_request_get (server : Request → HttpOutcome) (method endpoint : String)
    (data : Option PyVal) (h : pyUpper method = "GET") :
    _make_request server method endpoint data =
      _make_request.handle (server (Request.get endpoint)) := by
  simp [_make_request, h]

/-- Unfolding `_make_request` for the POST method. -/
theorem make_request_post (server : Request → HttpOutcome) (method endpoint : String)
    (data : Option PyVal) (h : pyUpper method = "POST") :
    _make_request server method endpoint data =
      _make_request.handle (server (Request.post endpoint (some (dataOrEmpty data)))) := by
  simp [_make_request, h]

/-- C10: a method that upper-cases to neither GET nor POST makes
`_make_request` consult no server at all (the result is the same for every
server oracle) and return a failure result whose error is the message of the
`ValueError` the source raises and immediately catches, namely
`"Unsupported method: "` followed by the method string. -/
theorem claim_C10 (method : String) (hg : pyUpper method ≠ "GET")
    (hp : pyUpper method ≠ "POST") (server : Request → HttpOutcome)
    (endpoint : String) (data : Option PyVal) :
    _make_request server method endpoint data =
      ⟨PyVal.bool false, PyVal.none, PyVal.none, PyVal.none,
        PyVal.str ("Unsupported method: " ++ method)⟩ ∧
    ∀ server2 : Request → HttpOutcome,
      _make_request server method endpoint data =
        _make_request server2 method endpoint data := by
  constructor
  · simp [_make_request, hg, hp]
  · intro server2
    simp [_make_request, hg, hp]

/-- Witness for C10 at the concrete method "PUT": the unsupported-method
result, and agreement between two servers that differ on every request. -/
theorem claim_C10_witness :
    _make_request connRefusedServer "PUT" "/voiceover/start" Option.none =
      ⟨PyVal.bool false, PyVal.none, PyVal.none, PyVal.none,
        PyVal.str "Unsupported method: PUT"⟩ ∧
    _make_request connRefusedServer "PUT" "/voiceover/start" Option.none =
      _make_request (exnServer "boom") "PUT" "/voiceover/start" Option.none := by
  have h := claim_C10 "PUT" (by decide) (by decide) connRefusedServer
    "/voiceover/start" Option.none
  exact ⟨h.1, h.2 (exnServer "boom")⟩

/-- C9: a command dict whose action is none of the six known action strings
(including an absent action, which `dict.get` turns into `None`) makes
`execute_llm_command` consult no server and return a failure result whose
error is `"Unknown action: "` followed by the Python string form of the
action value. -/
theorem claim_C9 (llm : List (String × PyVal)) (server : Request → HttpOutcome)
    (h1 : (dictGet llm "action" PyVal.none).eqStr "type" = false)
    (h2 : (dictGet llm "action" PyVal.none).eqStr "navigate_next" = false)
    (h3 : (dictGet llm "action" PyVal.none).eqStr "navigate_previous" = false)
    (h4 : (dictGet llm "action" PyVal.none).eqStr "click" = false)
    (h5 : (dictGet llm "action" PyVal.none).eqStr "open_app" = false)
    (h6 : (dictGet llm "action" PyVal.none).eqStr "press_key" = false) :
    execute_llm_command server llm =
      ⟨PyVal.bool false, PyVal.none, PyVal.none, PyVal.none,
        PyVal.str ("Unknown action: " ++ (dictGet llm "action" PyVal.none).pyStr)⟩ ∧
    ∀ server2 : Request → HttpOutcome,
      execute_llm_command server llm = execute_llm_command server2 llm := by
  constructor
  · simp [execute_llm_command, h1, h2, h3, h4, h5, h6]
  · intro server2
    simp [execute_llm_command, h1, h2, h3, h4, h5, h6]

/-- Witness for C9 at the empty command dict: the action is `None`, the
error is "Unknown action: None", and no server is consulted. -/
theorem claim_C9_witness :
    execute_llm_command connRefusedServer [] =
      ⟨PyVal.bool false, PyVal.none, PyVal.none, PyVal.none,
        PyVal.str "Unknown action: None"⟩ ∧
    execute_llm_command connRefusedServer [] =
      execute_llm_command (exnServer "boom") [] := by
  have h := claim_C9 [] connRefusedServer rfl rfl rfl rfl rfl rfl
  exact ⟨h.1, h.2 (exnServer "boom")⟩

/-- C8: when the JSON body lacks a "success" key the result defaults its
success flag to `False` (not to true and not to an error), and each of
message, currentItem, responses and error is `None` whenever its key is
absent from the body. -/
theorem claim_C8 (fields : List (String × PyVal)) (st : Nat)
    (server : Request → HttpOutcome) (method endpoint : String) (data : Option PyVal)
    (hm : pyUpper method = "GET" ∨ pyUpper method = "POST")
    (hs : ∀ r, server r = HttpOutcome.resp st (Except.ok fields)) :
    (fields.lookup "success" = Option.none →
      (_make_request server method endpoint data).success = PyVal.bool false) ∧
    (fields.lookup "message" = Option.none →
      (_make_request server method endpoint data).message = PyVal.none) ∧
    (fields.lookup "currentItem" = Option.none →
      (_make_request server method endpoint data).currentItem = PyVal.none) ∧
    (fields.lookup "responses" = Option.none →
      (_make_request server method endpoint data).responses = PyVal.none) ∧
    (fields.lookup "error" = Option.none →
      (_make_request server method endpoint data).error = PyVal.none) := by
  have hmk : ∀ r, _make_request.handle (server r) =
      ⟨dictGet fields "success" (PyVal.bool false),
        dictGet fields "message" PyVal.none,
        dictGet fields "currentItem" PyVal.none,
        dictGet fields "responses" PyVal.none,
        dictGet fields "error" PyVal.none⟩ := by
    intro r
    rw [hs r]
    rfl
  have hcall : _make_request server method endpoint data =
      ⟨dictGet fields "success" (PyVal.bool false),
        dictGet fields "message" PyVal.none,
        dictGet fields "currentItem" PyVal.none,
        dictGet fields "responses" PyVal.none,
        dictGet fields "error" PyVal.none⟩ := by
    rcases hm with h | h
    · rw [make_request_get server method endpoint data h, hmk]
    · rw [make_request_post server method endpoint data h, hmk]
  rw [hcall]
  refine ⟨fun h => ?_, fun h => ?_, fun h => ?_, fun h => ?_, fun h => ?_⟩ <;>
    simp [dictGet, h]

/-- Witness for C8 at the empty body returned to a GET /health call: every
field of the result takes its default. -/
theorem claim_C8_witness :
    (health_check (constBodyServer [])).success = PyVal.bool false ∧
    (health_check (constBodyServer [])).message = PyVal.none ∧
    (health_check (constBodyServer [])).currentItem = PyVal.none ∧
    (health_check (constBodyServer [])).responses = PyVal.none ∧
    (health_check (constBodyServer [])).error = PyVal.none := by
  have h := claim_C8 [] 200 (constBodyServer []) "GET" "/health" Option.none
    (Or.inl rfl) (fun r => rfl)
  exact ⟨h.1 rfl, h.2.1 rfl, h.2.2.1 rfl, h.2.2.2.1 rfl, h.2.2.2.2 rfl⟩

/-- C4: a server answering GET /voiceover/current with the JSON body
containing success true and currentItem X makes `get_current_item` return a
result with success `True` and currentItem exactly X; the remaining fields
default to `None`. -/
theorem claim_C4 (X : String) (st : Nat) (server : Request → HttpOutcome)
    (h : server (Request.get "/voiceover/current") =
      HttpOutcome.resp st
        (Except.ok [("success", PyVal.bool true), ("currentItem", PyVal.str X)])) :
    get_current_item server =
      ⟨PyVal.bool true, PyVal.none, PyVal.str X, PyVal.none, PyVal.none⟩ := by
  rw [get_current_item, make_request_get server "GET" "/voiceover/current"
    Option.none rfl, h]
  simp [_make_request.handle, dictGet, List.lookup]

/-- Witness for C4 at X = "Hello". -/
theorem claim_C4_witness :
    get_current_item (constBodyServer
        [("success", PyVal.bool true), ("currentItem", PyVal.str "Hello")]) =
      ⟨PyVal.bool true, PyVal.none, PyVal.str "Hello", PyVal.none, PyVal.none⟩ :=
  claim_C4 "Hello" 200 _ rfl

/-- Every valid-method request against a server whose outcomes are failures
with non-empty exception messages yields a failure result. -/
theorem make_request_fails (server : Request → HttpOutcome)
    (method endpoint : String) (data : Option PyVal)
    (hm : pyUpper method = "GET" ∨ pyUpper method = "POST")
    (h : ∀ r, failsNonEmpty (server r)) :
    failedResult (_make_request server method endpoint data) := by
  have key : ∀ r : Request, failedResult (_make_request.handle (server r)) := by
    intro r
    have hr := h r
    cases hsv : server r with
    | connErr m =>
        exact ⟨rfl, connectErrorMsg, rfl, by decide⟩
    | exn m =>
        rw [hsv] at hr
        exact ⟨rfl, m, rfl, hr⟩
    | resp st b =>
        cases b with
        | error m =>
            rw [hsv] at hr
            exact ⟨rfl, m, rfl, hr⟩
        | ok fields =>
            rw [hsv] at hr
            exact absurd hr (by simp [failsNonEmpty])
  rcases hm with hg | hp
  · rw [make_request_get server method endpoint data hg]
    exact key _
  · rw [make_request_post server method endpoint data hp]
    exact key _

/-- C1: against a malformed or unreachable server (every request refused,
or raising some exception, or answering a non-JSON body), each of the
eleven wrapper calls returns a result with success `False` and a non-empty
error string; the wrapper catches every exception, which the totality of
`_make_request` embeds, so nothing propagates to the caller. -/
theorem claim_C1 (server : Request → HttpOutcome) (t a ky ms : PyVal)
    (h : ∀ r, failsNonEmpty (server r)) :
    failedResult (start_voiceover server) ∧
    failedResult (stop_voiceover server) ∧
    failedResult (type_text server t) ∧
    failedResult (navigate_next server) ∧
    failedResult (navigate_previous server) ∧
    failedResult (get_current_item server) ∧
    failedResult (click_current server) ∧
    failedResult (open_app server a) ∧
    failedResult (press_key server ky) ∧
    failedResult (open_copilot_and_send_message server ms) ∧
    failedResult (health_check server) :=
  ⟨make_request_fails server "POST" "/voiceover/start" Option.none (Or.inr rfl) h,
   make_request_fails server "POST" "/voiceover/stop" Option.none (Or.inr rfl) h,
   make_request_fails server "POST" "/voiceover/type" _ (Or.inr rfl) h,
   make_request_fails server "POST" "/voiceover/next" Option.none (Or.inr rfl) h,
   make_request_fails server "POST" "/voiceover/previous" Option.none (Or.inr rfl) h,
   make_request_fails server "GET" "/voiceover/current" Option.none (Or.inl rfl) h,
   make_request_fails server "POST" "/voiceover/click" Option.none (Or.inr rfl) h,
   make_request_fails server "POST" "/system/open-app" _ (Or.inr rfl) h,
   make_request_fails server "POST" "/system/press-key" _ (Or.inr rfl) h,
   make_request_fails server "POST" "/operations/open-copilot-and-send-message" _
     (Or.inr rfl) h,
   make_request_fails server "GET" "/health" Option.none (Or.inl rfl) h⟩

/-- Witness for C1 at a server whose every request raises an exception with
message "boom". -/
theorem claim_C1_witness :
    failedResult (start_voiceover (exnServer "boom")) ∧
    failedResult (stop_voiceover (exnServer "boom")) ∧
    failedResult (type_text (exnServer "boom") (PyVal.str "hi")) ∧
    failedResult (navigate_next (exnServer "boom")) ∧
    failedResult (navigate_previous (exnServer "boom")) ∧
    failedResult (get_current_item (exnServer "boom")) ∧
    failedResult (click_current (exnServer "boom")) ∧
    failedResult (open_app (exnServer "boom") (PyVal.str "Copilot")) ∧
    failedResult (press_key (exnServer "boom") (PyVal.str "Tab")) ∧
    failedResult (open_copilot_and_send_message (exnServer "boom") (PyVal.str "hi")) ∧
    failedResult (health_check (exnServer "boom")) :=
  claim_C1 (exnServer "boom") (PyVal.str "hi") (PyVal.str "Copilot")
    (PyVal.str "Tab") (PyVal.str "hi")
    (fun _ => show ("boom" : String) ≠ "" by decide)

/-- Any valid-method request against a server that refuses every connection
returns the fixed connection-error result. -/
theorem make_request_connRefused (server : Request → HttpOutcome) (cm : String)
    (method endpoint : String) (data : Option PyVal)
    (hm : pyUpper method = "GET" ∨ pyUpper method = "POST")
    (hC : ∀ r, server r = HttpOutcome.connErr cm) :
    _make_request server method endpoint data = failResponse connectErrorMsg := by
  rcases hm with hg | hp
  · rw [make_request_get server method endpoint data hg, hC]
    rfl
  · rw [make_request_post server method endpoint data hp, hC]
    rfl

/-- Any valid-method request against a server whose every request raises a
non-connection exception with message `em` returns the failure result
carrying exactly `em`. -/
theorem make_request_exnMsg (server : Request → HttpOutcome) (em : String)
    (method endpoint : String) (data : Option PyVal)
    (hm : pyUpper method = "GET" ∨ pyUpper method = "POST")
    (hE : ∀ r, server r = HttpOutcome.exn em) :
    _make_request server method endpoint data = failResponse em := by
  rcases hm with hg | hp
  · rw [make_request_get server method endpoint data hg, hE]
    rfl
  · rw [make_request_post server method endpoint data hp, hE]
    rfl

/-- Any valid-method request against a server whose every body fails JSON
parsing with message `jm` returns the failure result carrying exactly `jm`
(the `.json()` exception is one of the "other" exceptions). -/
theorem make_request_jsonErr (server : Request → HttpOutcome) (jm : String) (st : Nat)
    (method endpoint : String) (data : Option PyVal)
    (hm : pyUpper method = "GET" ∨ pyUpper method = "POST")
    (hJ : ∀ r, server r = HttpOutcome.resp st (Except.error jm)) :
    _make_request server method endpoint data = failResponse jm := by
  rcases hm with hg | hp
  · rw [make_request_get server method endpoint data hg, hJ]
    rfl
  · rw [make_request_post server method endpoint data hp, hJ]
    rfl

/-- C7: on a connection error every one of the eleven wrapper calls returns
success `False` with the identical fixed error string
"Could not connect to VoiceOver server. Make sure it\x27s running.",
independent of endpoint and payload; on any other exception (a raising call
or an unparseable body) the error field is exactly the stringified
exception message. -/
theorem claim_C7 (cm em jm : String) (st : Nat)
    (serverC serverE serverJ : Request → HttpOutcome) (t a ky ms : PyVal)
    (hC : ∀ r, serverC r = HttpOutcome.connErr cm)
    (hE : ∀ r, serverE r = HttpOutcome.exn em)
    (hJ : ∀ r, serverJ r = HttpOutcome.resp st (Except.error jm)) :
    (start_voiceover serverC =
        failResponse "Could not connect to VoiceOver server. Make sure it\x27s running." ∧
      stop_voiceover serverC = failResponse connectErrorMsg ∧
      type_text serverC t = failResponse connectErrorMsg ∧
      navigate_next serverC = failResponse connectErrorMsg ∧
      navigate_previous serverC = failResponse connectErrorMsg ∧
      get_current_item serverC = failResponse connectErrorMsg ∧
      click_current serverC = failResponse connectErrorMsg ∧
      open_app serverC a = failResponse connectErrorMsg ∧
      press_key serverC ky = failResponse connectErrorMsg ∧
      open_copilot_and_send_message serverC ms = failResponse connectErrorMsg ∧
      health_check serverC = failResponse connectErrorMsg) ∧
    (start_voiceover serverE = failResponse em ∧
      stop_voiceover serverE = failResponse em ∧
      type_text serverE t = failResponse em ∧
      navigate_next serverE = failResponse em ∧
      navigate_previous serverE = failResponse em ∧
      get_current_item serverE = failResponse em ∧
      click_current serverE = failResponse em ∧
      open_app serverE a = failResponse em ∧
      press_key serverE ky = failResponse em ∧
      open_copilot_and_send_message serverE ms = failResponse em ∧
      health_check serverE = failResponse em) ∧
    (get_current_item serverJ = failResponse jm ∧
      health_check serverJ = failResponse jm ∧
      start_voiceover serverJ = failResponse jm) :=
  ⟨⟨make_request_connRefused serverC cm "POST" "/voiceover/start" Option.none (Or.inr rfl) hC,
    make_request_connRefused serverC cm "POST" "/voiceover/stop" Option.none (Or.inr rfl) hC,
    make_request_connRefused serverC cm "POST" "/voiceover/type" _ (Or.inr rfl) hC,
    make_request_connRefused serverC cm "POST" "/voiceover/next" Option.none (Or.inr rfl) hC,
    make_request_connRefused serverC cm "POST" "/voiceover/previous" Option.none (Or.inr rfl) hC,
    make_request_connRefused serverC cm "GET" "/voiceover/current" Option.none (Or.inl rfl) hC,
    make_request_connRefused serverC cm "POST" "/voiceover/click" Option.none (Or.inr rfl) hC,
    make_request_connRefused serverC cm "POST" "/system/open-app" _ (Or.inr rfl) hC,
    make_request_connRefused serverC cm "POST" "/system/press-key" _ (Or.inr rfl) hC,
    make_request_connRefused serverC cm "POST" "/operations/open-copilot-and-send-message" _
      (Or.inr rfl) hC,
    make_request_connRefused serverC cm "GET" "/health" Option.none (Or.inl rfl) hC⟩,
   ⟨make_request_exnMsg serverE em "POST" "/voiceover/start" Option.none (Or.inr rfl) hE,
    make_request_exnMsg serverE em "POST" "/voiceover/stop" Option.none (Or.inr rfl) hE,
    make_request_exnMsg serverE em "POST" "/voiceover/type" _ (Or.inr rfl) hE,
    make_request_exnMsg serverE em "POST" "/voiceover/next" Option.none (Or.inr rfl) hE,
    make_request_exnMsg serverE em "POST" "/voiceover/previous" Option.none (Or.inr rfl) hE,
    make_request_exnMsg serverE em "GET" "/voiceover/current" Option.none (Or.inl rfl) hE,
    make_request_exnMsg serverE em "POST" "/voiceover/click" Option.none (Or.inr rfl) hE,
    make_request_exnMsg serverE em "POST" "/system/open-app" _ (Or.inr rfl) hE,
    make_request_exnMsg serverE em "POST" "/system/press-key" _ (Or.inr rfl) hE,
    make_request_exnMsg serverE em "POST" "/operations/open-copilot-and-send-message" _
      (Or.inr rfl) hE,
    make_request_exnMsg serverE em "GET" "/health" Option.none (Or.inl rfl) hE⟩,
   ⟨make_request_jsonErr serverJ jm st "GET" "/voiceover/current" Option.none (Or.inl rfl) hJ,
    make_request_jsonErr serverJ jm st "GET" "/health" Option.none (Or.inl rfl) hJ,
    make_request_jsonErr serverJ jm st "POST" "/voiceover/start" Option.none (Or.inr rfl) hJ⟩⟩

/-- Witness for C7 at three concrete servers: connection refused, exception
"boom", and a body "bad" that is not JSON. -/
theorem claim_C7_witness :
    start_voiceover connRefusedServer =
      failResponse "Could not connect to VoiceOver server. Make sure it\x27s running." ∧
    health_check connRefusedServer = failResponse connectErrorMsg ∧
    get_current_item (exnServer "boom") = failResponse "boom" ∧
    health_check (badJsonServer "bad") = failResponse "bad" := by
  have h := claim_C7 "refused" "boom" "bad" 200 connRefusedServer (exnServer "boom")
    (badJsonServer "bad") (PyVal.str "hi") (PyVal.str "Copilot") (PyVal.str "Tab")
    (PyVal.str "msg") (fun _ => rfl) (fun _ => rfl) (fun _ => rfl)
  exact ⟨h.1.1, h.1.2.2.2.2.2.2.2.2.2.2, h.2.1.2.2.2.2.2.1, h.2.2.2.1⟩

/-- The attempt counter of loop 4.1 grows by at most the remaining fuel of
its `while` bound. -/
theorem navLoop1Go_attempts_le (server : Nat → HttpOutcome) :
    ∀ (fuel k a : Nat), (navLoop1Go server k a fuel).attempts ≤ a + fuel := by
  intro fuel
  induction fuel with
  | zero =>
    intro k a
    simp [navLoop1Go]
  | succ f ih =>
    intro k a
    simp only [navLoop1Go]
    repeat' split
    all_goals simp only []
    all_goals first
      | omega
      | exact le_trans (ih (k + 2) (a + 1)) (by omega)

/-- The attempt counter of loop 4.2 grows by at most the remaining fuel of
its `while` bound. -/
theorem navLoop2Go_attempts_le (server : Nat → HttpOutcome) :
    ∀ (fuel k a : Nat), (navLoop2Go server k a fuel).attempts ≤ a + fuel := by
  intro fuel
  induction fuel with
  | zero =>
    intro k a
    simp [navLoop2Go]
  | succ f ih =>
    intro k a
    simp only [navLoop2Go]
    repeat' split
    all_goals simp only []
    all_goals first
      | omega
      | exact le_trans (ih (k + 2) (a + 1)) (by omega)

/-- C2: whatever the server answers, each of the two navigation loops of the
scripted scenario keeps its attempt counter within the `max_attempts` bound
of 5; in particular, when no polled current item matches the keywords, the
loop stops navigating after at most 5 attempts. -/
theorem claim_C2 (server : Nat → HttpOutcome) (k k2 : Nat) :
    (navLoop1 server k).attempts ≤ 5 ∧ (navLoop2 server k2).attempts ≤ 5 :=
  ⟨navLoop1Go_attempts_le server 5 k 0, navLoop2Go_attempts_le server 5 k2 0⟩

/-- C3: against a server whose current item is always the string `s`,
loop 4.1 finds its control exactly when the lower-cased `s` contains
"show more" as a substring, and loop 4.2 exactly when the lower-cased `s`
contains both "upload" and "file" as substrings; the two closing conjuncts
exhibit matches on mixed-case text without any word boundary
("preSHOW MOREx", and "reupload profiles" where "file" sits inside
"profiles"). -/
theorem claim_C3 (s : String) :
    ((navLoop1 (constItemServer s) 0).exit = NavExit.found ↔
      pyContains (pyLower s) "show more" = true) ∧
    ((navLoop2 (constItemServer s) 0).exit = NavExit.found ↔
      (pyContains (pyLower s) "upload" && pyContains (pyLower s) "file") = true) ∧
    (navLoop1 (constItemServer "preSHOW MOREx") 0).exit = NavExit.found ∧
    (navLoop2 (constItemServer "reupload profiles") 0).exit = NavExit.found := by
  have h1 : dictGet [("success", PyVal.bool true), ("currentItem", PyVal.str s)]
      "success" PyVal.none = PyVal.bool true := rfl
  have h2 : dictGet [("success", PyVal.bool true), ("currentItem", PyVal.str s)]
      "currentItem" (PyVal.str "") = PyVal.str s := rfl
  have h3 : dictGet [("success", PyVal.bool true), ("currentItem", PyVal.str s)]
      "currentItem" (PyVal.str "Unknown") = PyVal.str s := rfl
  refine ⟨?_, ?_, by decide, by decide⟩
  · cases hm : pyContains (pyLower s) "show more" with
    | true =>
      simp [navLoop1, navLoop1Go, constItemServer, h1, h2, h3, PyVal.truthy, hm]
    | false =>
      simp [navLoop1, navLoop1Go, constItemServer, h1, h2, h3, PyVal.truthy, hm]
  · cases hm : (pyContains (pyLower s) "upload" && pyContains (pyLower s) "file") with
    | true =>
      simp [navLoop2, navLoop2Go, constItemServer, h1, h2, h3, PyVal.truthy, hm]
    | false =>
      simp [navLoop2, navLoop2Go, constItemServer, h1, h2, h3, PyVal.truthy, hm]

/-- Leaf case of the loop 4.1 trace lemma: an exit taken without completing
the iteration leaves the attempt counter at `a`, so the block prefix is
empty and the whole event list is the tail. -/
theorem navLoop1_trace_leaf (server : Nat → HttpOutcome) (k a fuel kk : Nat)
    (e : NavExit) (evs : List Ev) (hne : e ≠ NavExit.exhausted) :
    a ≤ (LoopOut.mk e a kk evs).attempts ∧
    ∃ tail, (LoopOut.mk e a kk evs).evs =
        ((List.range ((LoopOut.mk e a kk evs).attempts - a)).map
          (fun i => iterBlock1 server (k + 2 * i))).flatten ++ tail ∧
      ((LoopOut.mk e a kk evs).exit = NavExit.exhausted →
        (LoopOut.mk e a kk evs).attempts = a + fuel ∧ tail = []) :=
  ⟨le_rfl, evs, by simp, fun h => absurd h hne⟩

/-- Trace structure of loop 4.1: its event list starts with one full
iteration block (poll, focus print, next request, 0.5 s sleep) for every
counted navigation attempt, followed by the events of the final partial
iteration; when the loop exits by exhausting its bound, the counter has
advanced by exactly the remaining fuel and nothing follows the blocks. -/
theorem navLoop1Go_trace (server : Nat → HttpOutcome) :
    ∀ (fuel k a : Nat),
      a ≤ (navLoop1Go server k a fuel).attempts ∧
      ∃ tail, (navLoop1Go server k a fuel).evs =
          ((List.range ((navLoop1Go server k a fuel).attempts - a)).map
            (fun i => iterBlock1 server (k + 2 * i))).flatten ++ tail ∧
        ((navLoop1Go server k a fuel).exit = NavExit.exhausted →
          (navLoop1Go server k a fuel).attempts = a + fuel ∧ tail = []) := by
  intro fuel
  induction fuel with
  | zero =>
    intro k a
    exact ⟨le_rfl, [], by simp [navLoop1Go], fun _ => ⟨by simp [navLoop1Go], rfl⟩⟩
  | succ f ih =>
    intro k a
    simp only [navLoop1Go]
    cases hks : server k with
    | connErr m => exact navLoop1_trace_leaf server k a _ _ _ _ (by simp)
    | exn m => exact navLoop1_trace_leaf server k a _ _ _ _ (by simp)
    | resp st b =>
      cases b with
      | error m => exact navLoop1_trace_leaf server k a _ _ _ _ (by simp)
      | ok cur =>
        simp only []
        by_cases hsucc : (dictGet cur "success" PyVal.none).truthy = true
        · rw [if_pos hsucc]
          cases hci : dictGet cur "currentItem" (PyVal.str "") with
          | str raw =>
            simp only []
            by_cases hkw : pyContains (pyLower raw) "show more" = true
            · rw [if_pos hkw]
              cases hclk : server (k + 1) with
              | connErr m => exact navLoop1_trace_leaf server k a _ _ _ _ (by simp)
              | exn m => exact navLoop1_trace_leaf server k a _ _ _ _ (by simp)
              | resp st2 b2 =>
                cases b2 with
                | error m => exact navLoop1_trace_leaf server k a _ _ _ _ (by simp)
                | ok clickRes =>
                  simp only []
                  by_cases hcs : (dictGet clickRes "success" PyVal.none).truthy = true
                  · rw [if_pos hcs]
                    exact navLoop1_trace_leaf server k a _ _ _ _ (by simp)
                  · rw [if_neg hcs]
                    exact navLoop1_trace_leaf server k a _ _ _ _ (by simp)
            · rw [if_neg hkw]
              cases hnxt : server (k + 1) with
              | connErr m => exact navLoop1_trace_leaf server k a _ _ _ _ (by simp)
              | exn m => exact navLoop1_trace_leaf server k a _ _ _ _ (by simp)
              | resp st2 b2 =>
                obtain ⟨iha, tail, ihevs, ihex⟩ := ih (k + 2) (a + 1)
                simp only []
                refine ⟨by omega, tail, ?_, ?_⟩
                · rw [ihevs,
                    show (navLoop1Go server (k + 2) (a + 1) f).attempts - a =
                      ((navLoop1Go server (k + 2) (a + 1) f).attempts - (a + 1)) + 1
                      from by omega,
                    List.range_succ_eq_map, List.map_cons, List.flatten_cons,
                    List.map_map]
                  have hfun : ((fun i => iterBlock1 server (k + 2 * i)) ∘ Nat.succ) =
                      (fun i => iterBlock1 server (k + 2 + 2 * i)) :=
                    funext fun i => congrArg (iterBlock1 server) (by omega)
                  rw [hfun]
                  simp [iterBlock1, focusLabel, hks]
                · intro hex2
                  have h2 := ihex hex2
                  exact ⟨by omega, h2.2⟩
          | none => exact navLoop1_trace_leaf server k a _ _ _ _ (by simp)
          | bool bb => exact navLoop1_trace_leaf server k a _ _ _ _ (by simp)
          | int n => exact navLoop1_trace_leaf server k a _ _ _ _ (by simp)
          | list xs => exact navLoop1_trace_leaf server k a _ _ _ _ (by simp)
          | dict fs => exact navLoop1_trace_leaf server k a _ _ _ _ (by simp)
        · rw [if_neg hsucc]
          exact navLoop1_trace_leaf server k a _ _ _ _ (by simp)

/-- C6 counterexample: against a server whose poll bodies have a falsy
`success` flag, loop 4.1 ends with no keyword match and with its attempt
counter still at 0, so the loop ends neither by a match nor by exhausting
the 5 navigation attempts, contradicting the claim that those are the only
two ways it can end. -/
theorem claim_C6_counterexample :
    ¬ ((navLoop1 pollFailServer 0).exit = NavExit.found ∨
      (navLoop1 pollFailServer 0).attempts = 5) := by
  decide

/-- C6 as amended: loop 4.1 can also end on a poll whose success flag is
falsy or on an exception; its attempt counter stays within 5, its trace is
one full block (poll, focus print, next request, 0.5 s sleep) per counted
attempt followed by the final partial iteration, and when it does end by
exhaustion the counter is exactly 5 with nothing after the five blocks. -/
theorem claim_C6 (server : Nat → HttpOutcome) (k : Nat) :
    (navLoop1 server k).attempts ≤ 5 ∧
    ∃ tail, (navLoop1 server k).evs =
        ((List.range (navLoop1 server k).attempts).map
          (fun i => iterBlock1 server (k + 2 * i))).flatten ++ tail ∧
      ((navLoop1 server k).exit = NavExit.exhausted →
        (navLoop1 server k).attempts = 5 ∧ tail = []) := by
  simp only [navLoop1]
  obtain ⟨h0, tail, hevs, hex⟩ := navLoop1Go_trace server 5 k 0
  rw [Nat.sub_zero] at hevs
  refine ⟨navLoop1Go_attempts_le server 5 k 0, tail, hevs, ?_⟩
  intro h
  have h2 := hex h
  exact ⟨by omega, h2.2⟩

/-- C5: when the health check answers 200 with voiceOverRunning false, the
script prints the "Not running" status line and proceeds to the start step;
when the start request then fails with error "VoiceOver not supported", it
prints the permissions hint and returns immediately: the complete trace
contains exactly two requests (GET /health and POST /voiceover/start) and
no open-app, navigation, click or stop request, no later step at all. -/
theorem claim_C5 (st : Nat) (server : Nat → HttpOutcome)
    (h0 : server 0 =
      HttpOutcome.resp 200 (Except.ok [("voiceOverRunning", PyVal.bool false)]))
    (h1 : server 1 = HttpOutcome.resp st
      (Except.ok [("success", PyVal.bool false),
        ("error", PyVal.str "VoiceOver not supported")])) :
    test_voiceover_operations server =
      [Ev.print "🎯 Starting Python -> TypeScript -> VoiceOver integration test",
       Ev.print eqSep60,
       Ev.print "1. Checking server status...",
       Ev.req (Request.get "/health"),
       Ev.print "   ✅ Server running normally",
       Ev.print "   📊 VoiceOver status: Not running",
       Ev.print "\n2. Starting VoiceOver...",
       Ev.req (Request.post "/voiceover/start" Option.none),
       Ev.print "   ❌ VoiceOver startup failed: VoiceOver not supported",
       Ev.print "   💡 Please ensure VoiceOver permissions are configured as per README"] := by
  have hvd : dictGet [("voiceOverRunning", PyVal.bool false)]
      "voiceOverRunning" PyVal.none = PyVal.bool false := rfl
  have hsu : dictGet [("success", PyVal.bool false),
      ("error", PyVal.str "VoiceOver not supported")] "success" PyVal.none =
      PyVal.bool false := rfl
  have herr : dictGet [("success", PyVal.bool false),
      ("error", PyVal.str "VoiceOver not supported")] "error" PyVal.none =
      PyVal.str "VoiceOver not supported" := rfl
  have herr2 : dictGet [("success", PyVal.bool false),
      ("error", PyVal.str "VoiceOver not supported")] "error" (PyVal.str "") =
      PyVal.str "VoiceOver not supported" := rfl
  have hc : pyContains "VoiceOver not supported" "VoiceOver not supported" = true :=
    by decide
  simp [test_voiceover_operations, tvo_step2, h0, h1, hvd, hsu, herr, herr2, hc,
    PyVal.truthy, PyVal.pyStr]

/-- Witness for C5 at the concrete two-response server. -/
theorem claim_C5_witness :
    test_voiceover_operations c5server =
      [Ev.print "🎯 Starting Python -> TypeScript -> VoiceOver integration test",
       Ev.print eqSep60,
       Ev.print "1. Checking server status...",
       Ev.req (Request.get "/health"),
       Ev.print "   ✅ Server running normally",
       Ev.print "   📊 VoiceOver status: Not running",
       Ev.print "\n2. Starting VoiceOver...",
       Ev.req (Request.post "/voiceover/start" Option.none),
       Ev.print "   ❌ VoiceOver startup failed: VoiceOver not supported",
       Ev.print "   💡 Please ensure VoiceOver permissions are configured as per README"] :=
  claim_C5 200 c5server rfl rfl
